import Mathlib

/-!
Verification of the evtc command-line client (src/programs/evtc/main.cpp).

The development shallowly embeds the transaction assembly and remote signing
pipeline of evtc. External collaborators (the ledger node, the wallet
service, the file system and the JSON parser of the fc library) are modelled
as oracle fields of an environment record Env; the logic of main.cpp is
translated function by function. Network interactions are recorded in an
explicit trace of NetCall events so that claims about which remote calls
happen (and in which order) are statable.
-/

namespace Evtc

/-- Public keys. The C++ type public_key_type has a distinguished
default-constructed value (the zero key) and a parsing constructor from a
string; the cryptographic content is opaque to evtc, so keys are modelled as
an inductive with a zero value and an injective, never-zero parse. -/
inductive PublicKey where
  | zero : PublicKey
  | fromString (s : String) : PublicKey
deriving DecidableEq, Repr

/-- Group ids. The C++ type group_id (declared outside this file, in the
chain library) offers two derivations used by evtc: decoding an explicit
base-58 string, and deriving deterministically from a group signing key.
Both are opaque to evtc and modelled as injective constructors, plus the
default-constructed empty id. -/
inductive GroupId where
  | empty : GroupId
  | fromString (s : String) : GroupId
  | fromGroupKey (k : PublicKey) : GroupId
deriving DecidableEq, Repr

/-- Models group_id::to_base58, an opaque injective encoding. -/
def GroupId.to_base58 : GroupId → String
  | GroupId.empty => ""
  | GroupId.fromString s => s
  | GroupId.fromGroupKey PublicKey.zero => "b58:zero"
  | GroupId.fromGroupKey (PublicKey.fromString s) => "b58:" ++ s

/-- One weighted authorizer: either a key reference or a group reference. -/
inductive AuthorizerRef where
  | account (k : PublicKey) : AuthorizerRef
  | group (g : GroupId) : AuthorizerRef
deriving DecidableEq, Repr

structure AuthorizerWeight where
  ref : AuthorizerRef
  weight : Nat
deriving DecidableEq, Repr

/-- permission_def of the chain contracts library. -/
structure PermissionDef where
  name : String
  threshold : Nat
  authorizers : List AuthorizerWeight
deriving DecidableEq, Repr

/-- group_def: a tree of weighted authorizer nodes. evtc only parses and
relays it, never inspects it, so it is modelled abstractly by its root key
and a label. -/
structure GroupDef where
  gname : String
  gkey : PublicKey
deriving DecidableEq, Repr

/-- domain_key: the 128-bit resource key of an action. evtc produces it by
casting either a name128 or a group_id; both casts are kept as tags. -/
inductive DomainKey where
  | ofName (s : String) : DomainKey
  | ofGroupId (g : GroupId) : DomainKey
deriving DecidableEq, Repr

/-- newdomain payload (fields of the C++ struct of the same name). -/
structure NewDomain where
  dname : String
  issuer : PublicKey
  issue : PermissionDef
  transfer : PermissionDef
  manage : PermissionDef
deriving DecidableEq, Repr

/-- updatedomain payload: each permission slot is optional and a slot that
is never assigned stays unset. -/
structure UpdateDomain where
  dname : String
  issue : Option PermissionDef
  transfer : Option PermissionDef
  manage : Option PermissionDef
deriving DecidableEq, Repr

/-- updategroup payload. -/
structure UpdateGroup where
  id : GroupId
  group : GroupDef
deriving DecidableEq, Repr

/-- Tagged action payloads; only the operations the claims touch are
embedded. -/
inductive ActionData where
  | newdomain (nd : NewDomain) : ActionData
  | updatedomain (ud : UpdateDomain) : ActionData
  | updategroup (ug : UpdateGroup) : ActionData
deriving DecidableEq, Repr

/-- chain::action: resource type, resource key, payload. -/
structure Action where
  domain : String
  key : DomainKey
  data : ActionData
deriving DecidableEq, Repr

/-- signed_transaction. set_reference_block stores a prefix of the id of the
referenced block; the embedding keeps the whole block id. -/
structure SignedTransaction where
  expiration : Nat
  ref_block : String
  actions : List Action
  signatures : List String
deriving DecidableEq, Repr

/-- A default-constructed signed_transaction: empty actions, no
signatures. -/
def empty_signed_transaction : SignedTransaction :=
  { expiration := 0, ref_block := "", actions := [], signatures := [] }

/-- fc::variant values, for data that evtc passes through opaquely. -/
inductive Variant where
  | vnull : Variant
  | vbool (b : Bool) : Variant
  | vnum (n : Nat) : Variant
  | vstr (s : String) : Variant
  | varr (xs : List Variant) : Variant
deriving Repr

/-- Argument of the get_block call: evtc passes either the raw override
string of the caller, or the last irreversible block number. -/
inductive BlockRef where
  | byStr (s : String) : BlockRef
  | byNum (n : Nat) : BlockRef
deriving DecidableEq, Repr

/-- The network calls the pipeline can issue, in issue order. -/
inductive NetCall where
  | getInfo : NetCall
  | getBlock (arg : BlockRef) : NetCall
  | walletPublicKeys : NetCall
  | getRequiredKeys : NetCall
  | walletSignTrx : NetCall
  | pushTxn : NetCall
  | pushTxns : NetCall
  | getGroup (id : String) : NetCall
deriving DecidableEq, Repr

/-- The error classes raised by the embedded code paths. -/
inductive EvtcError where
  | connection : EvtcError
  | invalid_ref_block (block_num_or_id : String) : EvtcError
  | permission_type (msg : String) : EvtcError
  | group_type (msg : String) : EvtcError
  | transaction_type (msg : String) : EvtcError
  | variant_conversion : EvtcError
  | fc_assert (msg : String) : EvtcError
deriving DecidableEq, Repr

/-- packed_transaction compression modes. -/
inductive Compression where
  | nocomp : Compression
  | zlib : Compression
deriving DecidableEq, Repr

/-- Result of push_transaction: either the node acceptance result, or (when
broadcast is suppressed) the variant form of the transaction itself. -/
inductive PushResult where
  | node (v : Variant) : PushResult
  | trx (t : SignedTransaction) : PushResult
deriving Repr

/-- The global transaction options set by add_standard_transaction_options.
Field defaults mirror the initial values of the globals in main.cpp:
expiration 30 seconds, no reference block override, sign, broadcast. -/
structure TxConfig where
  tx_expiration : Nat := 30
  tx_ref_block_num_or_id : String := ""
  tx_skip_sign : Bool := false
  tx_dont_broadcast : Bool := false

def defaultTxConfig : TxConfig := {}

/-- Environment of one invocation: the get_info results of the ledger node,
plus oracle functions for the remaining remote endpoints and for the fc
JSON and file-system facilities, which are external collaborators of the
core. -/
structure Env where
  head_block_time : Nat
  head_block_id : String
  last_irreversible_block_num : Nat
  get_block : BlockRef → Option String
  wallet_public_keys : List PublicKey
  required_keys : SignedTransaction → List PublicKey → List PublicKey
  wallet_sign : SignedTransaction → List PublicKey → SignedTransaction
  push_txn : SignedTransaction → Compression → Variant
  push_txns : Variant → Variant
  get_group : String → Variant
  files : String → Option String
  from_string : String → Option Variant
  as_permission : Variant → Option PermissionDef
  as_group : Variant → Option GroupDef
  as_signed_transaction : Variant → Option SignedTransaction

/-- trx.set_reference_block(id): bind the TAPOS anchor to the given block
id. -/
def set_reference_block (trx : SignedTransaction) (bid : String) : SignedTransaction :=
  { trx with ref_block := bid }

/-- The block_num_or_id argument evtc sends to get_block: the caller
override when it is nonempty, otherwise the last irreversible block number
from get_info. -/
def ref_block_arg (cfg : TxConfig) (env : Env) : BlockRef :=
  if cfg.tx_ref_block_num_or_id.isEmpty then
    BlockRef.byNum env.last_irreversible_block_num
  else
    BlockRef.byStr cfg.tx_ref_block_num_or_id

/-- sign_transaction: list the wallet public keys, ask the node for the
required subset, ask the wallet to sign with exactly those keys. Returns
the signed transaction and the three calls issued. -/
def sign_transaction (env : Env) (trx : SignedTransaction) :
    SignedTransaction × List NetCall :=
  let public_keys := env.wallet_public_keys
  let required := env.required_keys trx public_keys
  let signed := env.wallet_sign trx required
  (signed, [NetCall.walletPublicKeys, NetCall.getRequiredKeys, NetCall.walletSignTrx])

/-- push_transaction: query get_info, set expiration to head block time
plus the configured expiration, provisionally anchor to the head block,
then resolve the TAPOS reference block via get_block (override or last
irreversible) and re-anchor to the resolved id; a failed resolution raises
invalid_ref_block carrying the caller-supplied override string. Then sign
unless skipped, and broadcast unless suppressed. The second component is
the trace of network calls issued. -/
def push_transaction (cfg : TxConfig) (env : Env) (trx0 : SignedTransaction)
    (compression : Compression) :
    Except EvtcError (SignedTransaction × PushResult) × List NetCall :=
  let trx1 : SignedTransaction :=
    { trx0 with expiration := env.head_block_time + cfg.tx_expiration }
  let trx2 := set_reference_block trx1 env.head_block_id
  let arg := ref_block_arg cfg env
  match env.get_block arg with
  | none =>
      (Except.error (EvtcError.invalid_ref_block cfg.tx_ref_block_num_or_id),
       [NetCall.getInfo, NetCall.getBlock arg])
  | some ref_block_id =>
      let trx3 := set_reference_block trx2 ref_block_id
      let signed :=
        if cfg.tx_skip_sign then (trx3, ([] : List NetCall))
        else sign_transaction env trx3
      let calls := [NetCall.getInfo, NetCall.getBlock arg] ++ signed.2
      if cfg.tx_dont_broadcast then
        (Except.ok (signed.1, PushResult.trx signed.1), calls)
      else
        (Except.ok (signed.1, PushResult.node (env.push_txn signed.1 compression)),
         calls ++ [NetCall.pushTxn])

/-- push_actions: wrap a list of actions in a fresh signed_transaction and
push it. -/
def push_actions (cfg : TxConfig) (env : Env) (actions : List Action)
    (compression : Compression := Compression.nocomp) :
    Except EvtcError (SignedTransaction × PushResult) × List NetCall :=
  push_transaction cfg env { empty_signed_transaction with actions := actions } compression

/-- Character-level form of the content sniff: skip leading spaces and
tabs, then test for an opening brace or an opening square bracket. -/
def json_sniff_chars : List Char → Bool
  | [] => false
  | c :: rest =>
      if c = ' ' || c = '\t' then json_sniff_chars rest
      else c = '\x7b' || c = '\x5b'

/-- The content sniff of json_from_file_or_string: the regex matches a
string whose first character after leading spaces and tabs is an opening
brace or an opening square bracket. -/
def json_sniff (s : String) : Bool :=
  json_sniff_chars s.data

/-- fc::json::from_file: read the file and parse its content. -/
def fc_from_file (env : Env) (path : String) : Option Variant :=
  (env.files path).bind env.from_string

/-- json_from_file_or_string: a string that does not look like JSON and
names an existing regular file is read from the file; every other string is
parsed as inline JSON text. -/
def json_from_file_or_string (env : Env) (s : String) : Option Variant :=
  if !json_sniff s && (env.files s).isSome then
    fc_from_file env s
  else
    env.from_string s

/-- parse_permission: sniff, parse, convert to permission_def; every
failure is rethrown as a permission type error. -/
def parse_permission (env : Env) (s : String) : Except EvtcError PermissionDef :=
  match json_from_file_or_string env s with
  | none => Except.error (EvtcError.permission_type "Fail to parse Permission JSON")
  | some v =>
      match env.as_permission v with
      | none => Except.error (EvtcError.permission_type "Fail to parse Permission JSON")
      | some p => Except.ok p

/-- parse_group: sniff, parse, convert to group_def; every failure is
rethrown as a group type error. -/
def parse_group (env : Env) (s : String) : Except EvtcError GroupDef :=
  match json_from_file_or_string env s with
  | none => Except.error (EvtcError.group_type "Fail to parse Group JSON")
  | some v =>
      match env.as_group v with
      | none => Except.error (EvtcError.group_type "Fail to parse Group JSON")
      | some g => Except.ok g

/-- get_default_permission: threshold 1 and one weight-1 authorizer, which
references the well-known owner group when the supplied key is the
default-constructed zero key and the key itself otherwise. -/
def get_default_permission (pname : String) (pkey : PublicKey) : PermissionDef :=
  if pkey = PublicKey.zero then
    { name := pname, threshold := 1,
      authorizers := [{ ref := AuthorizerRef.group (GroupId.fromString "owner"), weight := 1 }] }
  else
    { name := pname, threshold := 1,
      authorizers := [{ ref := AuthorizerRef.account pkey, weight := 1 }] }

/-- The permission slot handling of the updatedomain callback: a slot left
at the sentinel default is never assigned (stays unset); any other argument
is parsed. -/
def optional_permission (env : Env) (s : String) :
    Except EvtcError (Option PermissionDef) :=
  if s = "default" then Except.ok none
  else Except.map some (parse_permission env s)

/-- Callback of the domain create subcommand: build the newdomain payload
(defaulted slots via get_default_permission, the transfer default with the
zero key, the issue and manage defaults with the issuer key), wrap it in
one action keyed by the domain name, and push it. -/
def newdomain_callback (cfg : TxConfig) (env : Env)
    (name issuer issue transfer manage : String) :
    Except EvtcError (SignedTransaction × PushResult) × List NetCall :=
  let issuerKey := PublicKey.fromString issuer
  match (if issue = "default" then Except.ok (get_default_permission "issue" issuerKey)
         else parse_permission env issue) with
  | Except.error e => (Except.error e, [])
  | Except.ok pIssue =>
  match (if transfer = "default" then Except.ok (get_default_permission "transfer" PublicKey.zero)
         else parse_permission env transfer) with
  | Except.error e => (Except.error e, [])
  | Except.ok pTransfer =>
  match (if manage = "default" then Except.ok (get_default_permission "manage" issuerKey)
         else parse_permission env manage) with
  | Except.error e => (Except.error e, [])
  | Except.ok pManage =>
      let nd : NewDomain :=
        { dname := name, issuer := issuerKey,
          issue := pIssue, transfer := pTransfer, manage := pManage }
      let act : Action :=
        { domain := "domain", key := DomainKey.ofName nd.dname,
          data := ActionData.newdomain nd }
      push_actions cfg env [act]

/-- Callback of the domain update subcommand: only slots not left at the
sentinel default are parsed and included in the updatedomain payload. -/
def updatedomain_callback (cfg : TxConfig) (env : Env)
    (name issue transfer manage : String) :
    Except EvtcError (SignedTransaction × PushResult) × List NetCall :=
  match optional_permission env issue with
  | Except.error e => (Except.error e, [])
  | Except.ok oi =>
  match optional_permission env transfer with
  | Except.error e => (Except.error e, [])
  | Except.ok ot =>
  match optional_permission env manage with
  | Except.error e => (Except.error e, [])
  | Except.ok om =>
      let ud : UpdateDomain :=
        { dname := name, issue := oi, transfer := ot, manage := om }
      let act : Action :=
        { domain := "domain", key := DomainKey.ofName ud.dname,
          data := ActionData.updatedomain ud }
      push_actions cfg env [act]

/-- Callback of the group update subcommand: assert that an id or a key was
supplied, resolve the group id (an explicit id is decoded first, then a
supplied key overwrites it with the key-derived id), parse the group
document, and push one action keyed by the resolved id. -/
def updategroup_callback (cfg : TxConfig) (env : Env)
    (id key json : String) :
    Except EvtcError (SignedTransaction × PushResult) × List NetCall :=
  if id.isEmpty && key.isEmpty then
    (Except.error (EvtcError.fc_assert "Must provide either id or key"), [])
  else
    let gid0 := GroupId.empty
    let gid1 := if !id.isEmpty then GroupId.fromString id else gid0
    let gid := if !key.isEmpty then GroupId.fromGroupKey (PublicKey.fromString key) else gid1
    match parse_group env json with
    | Except.error e => (Except.error e, [])
    | Except.ok g =>
        let ug : UpdateGroup := { id := gid, group := g }
        let act : Action :=
          { domain := "group", key := DomainKey.ofGroupId ug.id,
            data := ActionData.updategroup ug }
        push_actions cfg env [act]

/-- Callback of the get group subcommand: assert that an id or a key was
supplied, resolve the group id the same way as the update subcommand, and
query the node with the base-58 form of the resolved id. -/
def get_group_callback (env : Env) (id key : String) :
    Except EvtcError Variant × List NetCall :=
  if id.isEmpty && key.isEmpty then
    (Except.error (EvtcError.fc_assert "Must provide either id or key"), [])
  else
    let gid1 := if !id.isEmpty then GroupId.fromString id else GroupId.empty
    let gid := if !key.isEmpty then GroupId.fromGroupKey (PublicKey.fromString key) else gid1
    (Except.ok (env.get_group (GroupId.to_base58 gid)),
     [NetCall.getGroup (GroupId.to_base58 gid)])

/-- The parse step of the push transaction subcommand: an existing regular
file is read and parsed, anything else is parsed as inline JSON text. No
content sniffing happens on this path. -/
def push_trx_parsed (env : Env) (s : String) : Option Variant :=
  if (env.files s).isSome then fc_from_file env s else env.from_string s

/-- Callback of the push transaction subcommand: parse (file or string),
convert to a signed_transaction, and submit it in one push_transaction
call. -/
def push_trx_callback (env : Env) (s : String) :
    Except EvtcError Variant × List NetCall :=
  match push_trx_parsed env s with
  | none => (Except.error (EvtcError.transaction_type "Fail to parse transaction JSON"), [])
  | some v =>
      match env.as_signed_transaction v with
      | none => (Except.error EvtcError.variant_conversion, [])
      | some trx =>
          (Except.ok (env.push_txn trx Compression.nocomp), [NetCall.pushTxn])

/-- Callback of the push transactions subcommand: the argument is parsed as
inline JSON text only (no file reading, no sniffing) and the parsed
document is forwarded whole in one push_txns call, whose result is
returned for printing. -/
def push_trxs_callback (env : Env) (s : String) :
    Except EvtcError Variant × List NetCall :=
  match env.from_string s with
  | none => (Except.error (EvtcError.transaction_type "Fail to parse transaction JSON"), [])
  | some v =>
      (Except.ok (env.push_txns v), [NetCall.pushTxns])

/-- A concrete environment for witnesses: every lookup succeeds, the wallet
signs by appending one signature, no file exists, and every string parses
to itself as a JSON string value. -/
def baseEnv : Env :=
  { head_block_time := 100
    head_block_id := "HEAD"
    last_irreversible_block_num := 7
    get_block := fun _ => some "LIBID"
    wallet_public_keys := [PublicKey.fromString "K1"]
    required_keys := fun _ keys => keys
    wallet_sign := fun t _ => { t with signatures := ["SIG"] }
    push_txn := fun _ _ => Variant.vstr "accepted"
    push_txns := fun v => Variant.varr [v]
    get_group := fun s => Variant.vstr s
    files := fun _ => none
    from_string := fun s => some (Variant.vstr s)
    as_permission := fun _ => none
    as_group := fun _ => none
    as_signed_transaction := fun _ => none }

/-- A concrete environment whose block lookups all fail. -/
def envNoBlock : Env := { baseEnv with get_block := fun _ => none }

/-- A concrete environment holding one file, batch.json, whose content is a
two-element JSON array; only that exact array text parses. -/
def envBatchFile : Env :=
  { baseEnv with
    files := fun p => if p = "batch.json" then some "[1,2]" else none
    from_string := fun s =>
      if s = "[1,2]" then some (Variant.varr [Variant.vnum 1, Variant.vnum 2]) else none }

/-- A concrete environment whose group documents all convert. -/
def envGroup : Env :=
  { baseEnv with as_group := fun _ => some { gname := "g", gkey := PublicKey.fromString "GK" } }

/-- C1: for every transaction assembled for submission, push_transaction
sets the expiration to the head block time of get_info plus the configured
expiration seconds (30 by default, caller overridable), and sets the
reference block to the id of the block resolved via get_block: the caller
supplied override when one is given, otherwise the last irreversible block
number from get_info. The wallet hypothesis states that signing only
populates signatures, leaving expiration and reference block intact. -/
theorem C1_assembler_sets_expiration_and_reference_block
    (cfg : TxConfig) (env : Env) (trx0 : SignedTransaction) (comp : Compression)
    (hw : ∀ t ks, (env.wallet_sign t ks).expiration = t.expiration ∧
                  (env.wallet_sign t ks).ref_block = t.ref_block)
    (bid : String) (hb : env.get_block (ref_block_arg cfg env) = some bid)
    (t : SignedTransaction) (r : PushResult)
    (hres : (push_transaction cfg env trx0 comp).1 = Except.ok (t, r)) :
    t.expiration = env.head_block_time + cfg.tx_expiration ∧
    t.ref_block = bid ∧
    defaultTxConfig.tx_expiration = 30 := by
  by_cases hs : cfg.tx_skip_sign <;>
    by_cases hd : cfg.tx_dont_broadcast <;>
      simp only [push_transaction, hb, hs, hd, if_true, if_false,
        Bool.false_eq_true, sign_transaction, set_reference_block,
        Except.ok.injEq, Prod.mk.injEq] at hres <;>
      obtain ⟨ht, _⟩ := hres <;> subst ht
  · exact ⟨rfl, rfl, rfl⟩
  · exact ⟨rfl, rfl, rfl⟩
  · exact ⟨(hw _ _).1, (hw _ _).2, rfl⟩
  · exact ⟨(hw _ _).1, (hw _ _).2, rfl⟩

def tC1 : SignedTransaction :=
  { expiration := 130, ref_block := "LIBID", actions := [], signatures := ["SIG"] }

theorem C1_witness :
    tC1.expiration = baseEnv.head_block_time + defaultTxConfig.tx_expiration ∧
    tC1.ref_block = "LIBID" ∧
    defaultTxConfig.tx_expiration = 30 :=
  C1_assembler_sets_expiration_and_reference_block defaultTxConfig baseEnv
    empty_signed_transaction Compression.nocomp
    (fun _ _ => ⟨rfl, rfl⟩) "LIBID" rfl tC1
    (PushResult.node (Variant.vstr "accepted")) rfl

/-- C2: every permission produced for a default permission input has
threshold 1 and exactly one weight-1 authorizer; the authorizer references
the supplied key when it is nonzero, and the well-known owner group when
the supplied key is the zero key. -/
theorem C2_default_permission_shape (pname : String) (pkey : PublicKey) :
    (get_default_permission pname pkey).name = pname ∧
    (get_default_permission pname pkey).threshold = 1 ∧
    (get_default_permission pname pkey).authorizers =
      [{ ref := if pkey = PublicKey.zero
                then AuthorizerRef.group (GroupId.fromString "owner")
                else AuthorizerRef.account pkey,
         weight := 1 }] := by
  unfold get_default_permission
  by_cases h : pkey = PublicKey.zero <;> simp [h]

/-- C3: when the reference block resolution via get_block fails, the
pipeline fails with an invalid reference block error carrying the caller
supplied identifier, and the network trace stops at get_info and get_block:
no wallet call is made and nothing is broadcast. -/
theorem C3_invalid_ref_block_fails_before_signing
    (cfg : TxConfig) (env : Env) (trx0 : SignedTransaction) (comp : Compression)
    (h : env.get_block (ref_block_arg cfg env) = none) :
    push_transaction cfg env trx0 comp =
      (Except.error (EvtcError.invalid_ref_block cfg.tx_ref_block_num_or_id),
       [NetCall.getInfo, NetCall.getBlock (ref_block_arg cfg env)]) := by
  simp only [push_transaction, h]

def cfgBad : TxConfig := { defaultTxConfig with tx_ref_block_num_or_id := "badblock" }

theorem C3_witness :
    push_transaction cfgBad envNoBlock empty_signed_transaction Compression.nocomp =
      (Except.error (EvtcError.invalid_ref_block cfgBad.tx_ref_block_num_or_id),
       [NetCall.getInfo, NetCall.getBlock (ref_block_arg cfgBad envNoBlock)]) :=
  C3_invalid_ref_block_fails_before_signing cfgBad envNoBlock
    empty_signed_transaction Compression.nocomp rfl

/-- C6: when the caller opts out of signing, the remote signer is bypassed
entirely: the network trace holds no wallet or required keys call, and the
transaction reaches the broadcaster with its signatures unchanged. -/
theorem C6_skip_sign_bypasses_wallet
    (cfg : TxConfig) (env : Env) (trx0 : SignedTransaction) (comp : Compression)
    (hskip : cfg.tx_skip_sign = true)
    (bid : String) (hb : env.get_block (ref_block_arg cfg env) = some bid)
    (t : SignedTransaction) (r : PushResult)
    (hres : (push_transaction cfg env trx0 comp).1 = Except.ok (t, r)) :
    (push_transaction cfg env trx0 comp).2 =
      [NetCall.getInfo, NetCall.getBlock (ref_block_arg cfg env)] ++
        (if cfg.tx_dont_broadcast then [] else [NetCall.pushTxn]) ∧
    t.signatures = trx0.signatures := by
  by_cases hd : cfg.tx_dont_broadcast <;>
    simp [push_transaction, hb, hskip, hd, set_reference_block] at hres ⊢ <;>
    obtain ⟨ht, -⟩ := hres <;> subst ht <;> simp

def cfgSkip : TxConfig := { defaultTxConfig with tx_skip_sign := true }

def tC6 : SignedTransaction :=
  { expiration := 130, ref_block := "LIBID", actions := [], signatures := [] }

theorem C6_witness :
    (push_transaction cfgSkip baseEnv empty_signed_transaction Compression.nocomp).2 =
      [NetCall.getInfo, NetCall.getBlock (ref_block_arg cfgSkip baseEnv)] ++
        (if cfgSkip.tx_dont_broadcast then [] else [NetCall.pushTxn]) ∧
    tC6.signatures = empty_signed_transaction.signatures :=
  C6_skip_sign_bypasses_wallet cfgSkip baseEnv empty_signed_transaction
    Compression.nocomp rfl "LIBID" rfl tC6
    (PushResult.node (Variant.vstr "accepted")) rfl

/-- C7: creating a domain with all three permission slots left at the
default sentinel produces exactly one action with resource type domain and
resource key derived from the domain name, in which the issue and manage
permissions each have a single authorizer referencing the issuer key and
the transfer permission has a single authorizer referencing the owner
group. -/
theorem C7_create_domain_with_defaults
    (cfg : TxConfig) (env : Env) (name issuer : String) :
    newdomain_callback cfg env name issuer "default" "default" "default" =
      push_actions cfg env
        [{ domain := "domain", key := DomainKey.ofName name,
           data := ActionData.newdomain
             { dname := name, issuer := PublicKey.fromString issuer,
               issue :=
                 { name := "issue", threshold := 1,
                   authorizers :=
                     [{ ref := AuthorizerRef.account (PublicKey.fromString issuer),
                        weight := 1 }] },
               transfer :=
                 { name := "transfer", threshold := 1,
                   authorizers :=
                     [{ ref := AuthorizerRef.group (GroupId.fromString "owner"),
                        weight := 1 }] },
               manage :=
                 { name := "manage", threshold := 1,
                   authorizers :=
                     [{ ref := AuthorizerRef.account (PublicKey.fromString issuer),
                        weight := 1 }] } } }] := by
  simp [newdomain_callback, get_default_permission]

/-- C8: the group update and group lookup callbacks, given neither an id
nor a key, fail immediately with the missing identifier assertion and an
empty network trace: no network call is made. -/
theorem C8_missing_identifier_fails_before_network
    (cfg : TxConfig) (env : Env) (json : String) :
    updategroup_callback cfg env "" "" json =
      (Except.error (EvtcError.fc_assert "Must provide either id or key"), []) ∧
    get_group_callback env "" "" =
      (Except.error (EvtcError.fc_assert "Must provide either id or key"), []) :=
  ⟨rfl, rfl⟩

/-- C9: in the domain update callback every permission slot left at the
default sentinel is omitted from the update action entirely (the optional
field stays unset), and only explicitly supplied slots are parsed and
included. -/
theorem C9_update_domain_defaults_omitted
    (cfg : TxConfig) (env : Env) (name issue transfer manage : String)
    (oi ot om : Option PermissionDef)
    (hi : optional_permission env issue = Except.ok oi)
    (ht : optional_permission env transfer = Except.ok ot)
    (hm : optional_permission env manage = Except.ok om) :
    updatedomain_callback cfg env name issue transfer manage =
      push_actions cfg env
        [{ domain := "domain", key := DomainKey.ofName name,
           data := ActionData.updatedomain
             { dname := name, issue := oi, transfer := ot, manage := om } }] ∧
    (issue = "default" → oi = none) ∧
    (issue ≠ "default" → Except.map some (parse_permission env issue) = Except.ok oi) ∧
    (transfer = "default" → ot = none) ∧
    (transfer ≠ "default" → Except.map some (parse_permission env transfer) = Except.ok ot) ∧
    (manage = "default" → om = none) ∧
    (manage ≠ "default" → Except.map some (parse_permission env manage) = Except.ok om) := by
  refine ⟨?_, ?_, ?_, ?_, ?_, ?_, ?_⟩
  · simp [updatedomain_callback, hi, ht, hm]
  · intro h; rw [h] at hi; simp [optional_permission] at hi; exact hi.symm
  · intro h; simp [optional_permission, h] at hi; exact hi
  · intro h; rw [h] at ht; simp [optional_permission] at ht; exact ht.symm
  · intro h; simp [optional_permission, h] at ht; exact ht
  · intro h; rw [h] at hm; simp [optional_permission] at hm; exact hm.symm
  · intro h; simp [optional_permission, h] at hm; exact hm

theorem C9_witness :
    updatedomain_callback defaultTxConfig baseEnv "mydomain" "default" "default" "default" =
      push_actions defaultTxConfig baseEnv
        [{ domain := "domain", key := DomainKey.ofName "mydomain",
           data := ActionData.updatedomain
             { dname := "mydomain", issue := none, transfer := none, manage := none } }] ∧
    ("default" = "default" → (none : Option PermissionDef) = none) ∧
    ("default" ≠ "default" →
      Except.map some (parse_permission baseEnv "default") = Except.ok none) ∧
    ("default" = "default" → (none : Option PermissionDef) = none) ∧
    ("default" ≠ "default" →
      Except.map some (parse_permission baseEnv "default") = Except.ok none) ∧
    ("default" = "default" → (none : Option PermissionDef) = none) ∧
    ("default" ≠ "default" →
      Except.map some (parse_permission baseEnv "default") = Except.ok none) :=
  C9_update_domain_defaults_omitted defaultTxConfig baseEnv
    "mydomain" "default" "default" "default" none none none rfl rfl rfl

/-- C10: in the group update and group lookup callbacks, when both an
explicit id and a key are supplied, the group id actually used is the one
derived from the key: it overwrites the id decoded from the explicit
argument, both in the pushed update action and in the lookup query. -/
theorem C10_key_derived_group_id_wins
    (cfg : TxConfig) (env : Env) (id key json : String) (g : GroupDef)
    (hid : id.isEmpty = false) (hkey : key.isEmpty = false)
    (hg : parse_group env json = Except.ok g) :
    updategroup_callback cfg env id key json =
      push_actions cfg env
        [{ domain := "group",
           key := DomainKey.ofGroupId (GroupId.fromGroupKey (PublicKey.fromString key)),
           data := ActionData.updategroup
             { id := GroupId.fromGroupKey (PublicKey.fromString key), group := g } }] ∧
    get_group_callback env id key =
      (Except.ok (env.get_group
         (GroupId.to_base58 (GroupId.fromGroupKey (PublicKey.fromString key)))),
       [NetCall.getGroup
         (GroupId.to_base58 (GroupId.fromGroupKey (PublicKey.fromString key)))]) := by
  constructor
  · simp [updategroup_callback, hid, hkey, hg]
  · simp [get_group_callback, hid, hkey]

theorem C10_witness :
    updategroup_callback defaultTxConfig envGroup "ID1" "KEY1" "gjson" =
      push_actions defaultTxConfig envGroup
        [{ domain := "group",
           key := DomainKey.ofGroupId (GroupId.fromGroupKey (PublicKey.fromString "KEY1")),
           data := ActionData.updategroup
             { id := GroupId.fromGroupKey (PublicKey.fromString "KEY1"),
               group := { gname := "g", gkey := PublicKey.fromString "GK" } } }] ∧
    get_group_callback envGroup "ID1" "KEY1" =
      (Except.ok (envGroup.get_group
         (GroupId.to_base58 (GroupId.fromGroupKey (PublicKey.fromString "KEY1")))),
       [NetCall.getGroup
         (GroupId.to_base58 (GroupId.fromGroupKey (PublicKey.fromString "KEY1")))]) :=
  C10_key_derived_group_id_wins defaultTxConfig envGroup "ID1" "KEY1" "gjson"
    { gname := "g", gkey := PublicKey.fromString "GK" } rfl rfl (by rfl)

/-- C4 (amended): for permission and group inputs, a string that looks like
JSON (leading brace or bracket after spaces and tabs) is parsed as inline
JSON, and so is any string that does not name an existing regular file;
only a non JSON looking string naming an existing regular file is read from
the file and parsed. The transaction push input is not content sniffed at
all: it is read as a file exactly when it names an existing regular file,
and parsed as inline JSON otherwise. -/
theorem C4_json_or_file_selection (env : Env) (s : String) :
    (json_sniff s = true → json_from_file_or_string env s = env.from_string s) ∧
    (env.files s = none → json_from_file_or_string env s = env.from_string s) ∧
    (json_sniff s = false → (env.files s).isSome = true →
      json_from_file_or_string env s = fc_from_file env s) ∧
    ((env.files s).isSome = true → push_trx_parsed env s = fc_from_file env s) ∧
    (env.files s = none → push_trx_parsed env s = env.from_string s) := by
  refine ⟨fun h => ?_, fun h => ?_, fun h h2 => ?_, fun h => ?_, fun h => ?_⟩
  · simp [json_from_file_or_string, h]
  · simp [json_from_file_or_string, h]
  · simp [json_from_file_or_string, h, h2]
  · simp [push_trx_parsed, h]
  · simp [push_trx_parsed, h]

theorem C4_witness :
    json_from_file_or_string baseEnv "\x7b\x7d" = baseEnv.from_string "\x7b\x7d" :=
  (C4_json_or_file_selection baseEnv "\x7b\x7d").1 rfl

/-- C4 counterexample: the string nofile does not begin with a brace or a
bracket and names no existing file, yet the code parses it as inline JSON
text instead of treating it as a file path to read: the claimed read of a
file would produce none here. -/
theorem C4_counterexample :
    json_sniff "nofile" = false ∧
    baseEnv.files "nofile" = none ∧
    json_from_file_or_string baseEnv "nofile" = some (Variant.vstr "nofile") ∧
    json_from_file_or_string baseEnv "nofile" ≠ fc_from_file baseEnv "nofile" :=
  ⟨rfl, rfl, rfl, fun h => Option.noConfusion h⟩

/-- C5 (amended): the push transactions subcommand parses its argument as
inline JSON text only; whenever that parse succeeds, the entire parsed
document is forwarded to the ledger node in a single push_txns call and
the batched result is returned for printing unmodified. -/
theorem C5_push_transactions_batched (env : Env) (s : String) (v : Variant)
    (h : env.from_string s = some v) :
    push_trxs_callback env s = (Except.ok (env.push_txns v), [NetCall.pushTxns]) := by
  simp [push_trxs_callback, h]

theorem C5_witness :
    push_trxs_callback baseEnv "[1,2]" =
      (Except.ok (baseEnv.push_txns (Variant.vstr "[1,2]")), [NetCall.pushTxns]) :=
  C5_push_transactions_batched baseEnv "[1,2]" (Variant.vstr "[1,2]") rfl

/-- C5 counterexample: a file named batch.json exists and holds a parseable
two element transaction array, yet pushing the file name through the push
transactions subcommand is a parse failure with no network call: the
subcommand never reads files, so nothing is forwarded. -/
theorem C5_counterexample :
    envBatchFile.files "batch.json" = some "[1,2]" ∧
    (envBatchFile.from_string "[1,2]").isSome = true ∧
    push_trxs_callback envBatchFile "batch.json" =
      (Except.error (EvtcError.transaction_type "Fail to parse transaction JSON"), []) ∧
    (push_trxs_callback envBatchFile "batch.json").2 ≠ [NetCall.pushTxns] :=
  ⟨rfl, rfl, rfl, fun h => List.noConfusion h⟩

end Evtc
